import Mathlib

/-!
Verification of the drug-risk demo dashboard.

Shallow embedding of the browser-side dashboard logic of this repository:
the local fallback formula `computeRiskCurve`, the remote-prediction
pipeline `fetchFromAPI` / `convertAPIResponse` / `updateAll`, and the
stat-tile click handler from `animations.js`.

JavaScript numbers are modelled as real numbers; `Math.round` is the
JavaScript rounding `⌊x + 1/2⌋`, `Math.log` is the natural logarithm,
`Math.min`/`Math.max` are `min`/`max`.  Template strings that interpolate
numeric values are modelled as inductive constructors carrying the
interpolated data, so that no information in the rendered text is lost.
-/

namespace DrugRisk

/-- JavaScript `Math.round`: rounds half-up, `⌊x + 1/2⌋`. -/
noncomputable def jsRound (x : ℝ) : ℤ := ⌊x + 1/2⌋

/-- JS `Array.prototype.map` where the callback uses the element and its
index: `xs.map((t, i) => f t i)`, with `i` starting at `start`. -/
def mapWithIdx (f : α → ℕ → β) : List α → ℕ → List β
  | [], _ => []
  | t :: ts, i => f t i :: mapWithIdx f ts (i + 1)

/-- The dashboard form state `state = { sex, age, med, dose }`. -/
structure RiskState where
  sex : String
  age : ℝ
  med : String
  dose : ℝ

/-- The interpolated recommendation text (`recommendation.text`). -/
inductive RecText where
  /-- Text `Recommended: ${dose} mg (no change)`. -/
  | noChange (dose : ℝ)
  /-- Text `Recommended: ${recDose} mg (optimized for female metabolism)`. -/
  | optimizedFemale (recDose : ℝ)
  /-- Text `Recommended: ${state.dose} mg` (API path, low risk). -/
  | apiPlain (dose : ℝ)
  /-- Text `Recommended: ${…} mg (reduced for high risk)` (API path). -/
  | apiHighRisk (recDose : ℝ)
  /-- Text `Recommended: ${state.dose} mg (monitor closely)` (API path). -/
  | apiMonitor (dose : ℝ)

/-- The `recommendation` object: the local formula sets `{ text, dose }`,
the API conversion only `{ text }` (no `dose` field, hence `Option`). -/
structure Recommendation where
  text : RecText
  dose : Option ℝ

/-- The metabolism narrative (`metab`). -/
inductive MetabText where
  /-- fixed sertraline demo sentence -/
  | sertralineDemo
  /-- fixed generic pharmacokinetics sentence -/
  | genericSexDiff
  /-- Text `Risk Level: ${riskLabel} (${Math.round(riskProb*100)}% probability). Confidence: ${confidence}.`. -/
  | apiRisk (riskLabel : Option String) (probPct : ℤ) (confidence : Option ℝ)

/-- The result shape produced by `computeRiskCurve` and `convertAPIResponse`. -/
structure RiskResult where
  times : List ℝ
  femaleCurve : List ℝ
  maleCurve : List ℝ
  diffPct : ℤ
  recommendation : Recommendation
  metab : MetabText

/-- Source `const times = [1, 4, 8, 12, 48]` (hours). -/
def riskTimes : List ℝ := [1, 4, 8, 12, 48]

/-- Source `const medBase = { sertraline: 0.12, amlodipine: 0.08, metformin: 0.04 }[med] || 0.06`. -/
noncomputable def medBase (med : String) : ℝ :=
  if med = "sertraline" then 0.12
  else if med = "amlodipine" then 0.08
  else if med = "metformin" then 0.04
  else 0.06

/-- Source `const sexMult = (sex === "female") ? 1.26 : 1.0` (quotes adapted). -/
noncomputable def sexMult (sex : String) : ℝ :=
  if sex = "female" then 1.26 else 1.0

/-- Source `const ageMult = 1 + (Math.max(0, age - 30) / 100)`. -/
noncomputable def ageMult (age : ℝ) : ℝ := 1 + max 0 (age - 30) / 100

/-- Source `const doseFactor = 1 + Math.log(1 + dose / 20) / 3`. -/
noncomputable def doseFactor (dose : ℝ) : ℝ := 1 + Real.log (1 + dose / 20) / 3

/-- One curve entry:
`const tFactor = 1 + i * 0.06; const raw = base * tFactor * sexM * ageM * doseF;`
`return Math.min(95, Math.round(raw * 10) / 10);` -/
noncomputable def curvePoint (base sexM ageM doseF : ℝ) (i : ℕ) : ℝ :=
  min 95 ((jsRound (base * (1 + (i : ℝ) * 0.06) * sexM * ageM * doseF * 10) : ℝ) / 10)

/-- The local fallback formula `computeRiskCurve({ sex, age, med, dose })`. -/
noncomputable def computeRiskCurve (st : RiskState) : RiskResult :=
  let base := medBase st.med * 100
  let femaleCurve := mapWithIdx
    (fun _ i => curvePoint base (sexMult st.sex) (ageMult st.age) (doseFactor st.dose) i)
    riskTimes 0
  let maleCurve := mapWithIdx
    (fun _ i => curvePoint base 1.0 (ageMult st.age) (doseFactor st.dose) i)
    riskTimes 0
  let femaleAt50 := femaleCurve.getD 2 0
  let maleAt50 := maleCurve.getD 2 0
  let diffPct := jsRound ((femaleAt50 - maleAt50) / max maleAt50 1 * 100)
  let recommendation : Recommendation :=
    if st.sex = "female" ∧ diffPct > 15 then
      { text := .optimizedFemale (max 1 ((jsRound (st.dose * 0.8) : ℤ) : ℝ))
        dose := some (max 1 ((jsRound (st.dose * 0.8) : ℤ) : ℝ)) }
    else
      { text := .noChange st.dose, dose := some st.dose }
  let metab : MetabText :=
    if st.med = "sertraline" then .sertralineDemo else .genericSexDiff
  { times := riskTimes
    femaleCurve := femaleCurve
    maleCurve := maleCurve
    diffPct := diffPct
    recommendation := recommendation
    metab := metab }

/-! Section: remote prediction pipeline -/

/-- The nested `prediction` object of an API response.  A JSON field that
may be `undefined` is an `Option`. -/
structure Prediction where
  risk_probability : Option ℝ
  risk_label : Option String
  confidence : Option ℝ

/-- The JSON body of a `/predict` response, with the fields
`convertAPIResponse` and `fetchFromAPI` inspect. -/
structure APIResponse where
  error : Option String
  risk_probability : Option ℝ
  risk_label : Option String
  confidence : Option ℝ
  prediction : Option Prediction

/-- One API-path curve entry:
`const tFactor = 1 + i * 0.05; Math.min(95, Math.round(risk * tFactor * 10) / 10)`. -/
noncomputable def apiCurvePoint (risk : ℝ) (i : ℕ) : ℝ :=
  min 95 ((jsRound (risk * (1 + (i : ℝ) * 0.05) * 10) : ℝ) / 10)

/-- Body of `convertAPIResponse` after the response shape has been
resolved to `riskProb` / `riskLabel` / `confidence`. -/
noncomputable def convertAPIResponseWith (riskProb : ℝ) (riskLabel : Option String)
    (confidence : Option ℝ) (st : RiskState) : RiskResult :=
  let baseRisk := riskProb * 100
  let femaleCurve := mapWithIdx (fun _ i => apiCurvePoint baseRisk i) riskTimes 0
  -- `const maleRisk = baseRisk * 0.8; // Males typically 20% lower risk`
  let maleCurve := mapWithIdx (fun _ i => apiCurvePoint (baseRisk * 0.8) i) riskTimes 0
  let diffPct := jsRound
    ((femaleCurve.getD 2 0 - maleCurve.getD 2 0) / max (maleCurve.getD 2 0) 1 * 100)
  let recText : RecText :=
    if riskProb > 0.7 then .apiHighRisk ((jsRound (st.dose * 0.8) : ℤ) : ℝ)
    else if riskProb > 0.3 then .apiMonitor st.dose
    else .apiPlain st.dose
  { times := riskTimes
    femaleCurve := femaleCurve
    maleCurve := maleCurve
    diffPct := diffPct
    recommendation := { text := recText, dose := none }
    metab := .apiRisk riskLabel (jsRound (riskProb * 100)) confidence }

/-- Conversion `convertAPIResponse(apiResult, state)`: direct shape, else nested
shape, else `throw new Error("Invalid API response structure")` (quotes adapted). -/
noncomputable def convertAPIResponse (apiResult : APIResponse) (st : RiskState) :
    Except String RiskResult :=
  match apiResult.risk_probability with
  | some p => .ok (convertAPIResponseWith p apiResult.risk_label apiResult.confidence st)
  | none =>
    match apiResult.prediction with
    | some pred =>
      match pred.risk_probability with
      | some p => .ok (convertAPIResponseWith p pred.risk_label pred.confidence st)
      | none => .error ("Invalid API response structure")
    | none => .error ("Invalid API response structure")

/-- How the remote endpoint behaves for one `fetch`: either the request
does not complete (network error), or it yields a response with a status
flag (`response.ok`) and a JSON body. -/
inductive RemoteBehavior where
  | unreachable (msg : String)
  | respond (ok : Bool) (body : APIResponse)

/-- Fetch `fetchFromAPI(state)` given the remote behavior: a network failure or
`!response.ok` or a body with an `error` field throws; otherwise the body
is converted with `convertAPIResponse`. -/
noncomputable def fetchFromAPI (remote : RemoteBehavior) (st : RiskState) :
    Except String RiskResult :=
  match remote with
  | .unreachable msg => .error msg
  | .respond ok body =>
    if !ok then .error ("API request failed")
    else
      match body.error with
      | some e => .error e
      | none => convertAPIResponse body st

/-! Section: dashboard rendering (`updateAll`) -/

/-- What `#risk-diff-val` shows. -/
inductive RiskDiffView where
  /-- the loading placeholder `Analyzing...` -/
  | analyzing
  /-- Text `${result.diffPct}% higher risk for women at ~${state.dose}mg`. -/
  | rendered (diffPct : ℤ) (dose : ℝ)
  /-- Text `Analysis failed: ` plus message (outer catch). -/
  | failed (msg : String)

/-- What `#recommend-text` shows. -/
inductive RecommendView where
  | computing
  | rendered (t : RecText)
  | unavailable

/-- What `#metab-text` shows. -/
inductive MetabView where
  | processing
  | rendered (m : MetabText)
  | unavailable

/-- The dashboard widgets `updateAll` writes to: the two chart datasets
and the three text nodes. -/
structure DashboardView where
  chartFemale : List ℝ
  chartMale : List ℝ
  riskDiff : RiskDiffView
  recommend : RecommendView
  metab : MetabView

/-- The loading state `updateAll` shows first (chart data untouched). -/
def loadingView (chartF chartM : List ℝ) : DashboardView :=
  { chartFemale := chartF
    chartMale := chartM
    riskDiff := .analyzing
    recommend := .computing
    metab := .processing }

/-- The final view of one `updateAll` call: the inner `try` takes the API
result, the inner `catch` falls back to `computeRiskCurve(state)`; the
chart datasets and the three texts are then rendered from that result. -/
noncomputable def updateAll (remote : RemoteBehavior) (st : RiskState) : DashboardView :=
  let result := match fetchFromAPI remote st with
    | .ok r => r
    | .error _ => computeRiskCurve st
  { chartFemale := result.femaleCurve
    chartMale := result.maleCurve
    riskDiff := .rendered result.diffPct st.dose
    recommend := .rendered result.recommendation.text
    metab := .rendered result.metab }

/-- The sequence of view states one `updateAll` call drives the page
through: the loading placeholder, then the final rendered view. -/
noncomputable def updateAllTrace (remote : RemoteBehavior) (st : RiskState)
    (chart0F chart0M : List ℝ) : List DashboardView :=
  [loadingView chart0F chart0M, updateAll remote st]

/-! Section: stat-tile click handler (`animations.js`) -/

/-- The `active` flags of the stat tiles and of the indicator dots. -/
structure StatsPage where
  statActive : List Bool
  dotActive : List Bool

/-- The click handler of stat tile `i`:
`statEls.forEach(x => x.classList.remove("active"))`,
`dots.forEach(d => d.classList.remove("active"))`,
`s.classList.add("active")`, `if (dots[i]) dots[i].classList.add("active")` (quotes adapted).
`List.set` is a no-op out of range, matching the `if (dots[i])` guard. -/
def clickStat (page : StatsPage) (i : ℕ) : StatsPage :=
  { statActive := (page.statActive.map fun _ => false).set i true
    dotActive := (page.dotActive.map fun _ => false).set i true }

/-! Section: basic facts about the helpers -/

theorem mapWithIdx_length (f : α → ℕ → β) :
    ∀ (l : List α) (s : ℕ), (mapWithIdx f l s).length = l.length := by
  intro l
  induction l with
  | nil => intro s; rfl
  | cons t ts ih => intro s; simp [mapWithIdx, ih]

theorem jsRound_mono {x y : ℝ} (h : x ≤ y) : jsRound x ≤ jsRound y :=
  Int.floor_le_floor (by linarith)

theorem jsRound_nonneg {x : ℝ} (h : 0 ≤ x) : 0 ≤ jsRound x := by
  have : (0 : ℤ) ≤ ⌊x + 1/2⌋ := Int.le_floor.mpr (by norm_num; linarith)
  exact this

theorem jsRound_eq {x : ℝ} {n : ℤ} (h1 : (n : ℝ) ≤ x + 1/2) (h2 : x + 1/2 < n + 1) :
    jsRound x = n := by
  unfold jsRound
  exact Int.floor_eq_iff.mpr ⟨h1, by linarith⟩

/-- Unfolding the indexed map over the fixed five time points. -/
theorem mapWithIdx_riskTimes (f : ℝ → ℕ → β) :
    mapWithIdx f riskTimes 0 = [f 1 0, f 4 1, f 8 2, f 12 3, f 48 4] := rfl

/-- After deactivating every element and then activating index `i`, an
element reads active exactly when it is at index `i` and `i` is in range. -/
theorem setTrue_getD (l : List Bool) (i j : ℕ) :
    ((l.map fun _ => false).set i true).getD j false = true ↔ j = i ∧ i < l.length := by
  rw [List.getD_eq_getElem?_getD, List.getElem?_set]
  simp only [List.length_map, List.getElem?_map]
  by_cases hij : i = j
  · subst hij
    by_cases hi : i < l.length
    · simp [hi]
    · simp only [if_pos rfl, if_neg hi]
      simp [Option.getD]
      omega
  · simp only [if_neg hij]
    constructor
    · intro h
      exfalso
      rcases hilt : l[j]? with _ | b
      · simp [hilt] at h
      · simp [hilt] at h
    · intro ⟨hji, _⟩
      exact absurd hji.symm hij

/-- The initial form state `let state = { sex: "male", age: 35, med: "sertraline", dose: 50 }` (quotes adapted). -/
noncomputable def demoState : RiskState :=
  { sex := "male", age := 35, med := "sertraline", dose := 50 }

/-- A response body carrying none of the recognized fields. -/
def emptyBody : APIResponse :=
  { error := none, risk_probability := none, risk_label := none,
    confidence := none, prediction := none }

/-! Section: numeric bounds on the logarithms that appear at concrete inputs -/

/-- Lower bound `1.25 ≤ ln 3.5`, via `exp 1.25 ^ 4 = (exp 1) ^ 5 ≤ 3.5 ^ 4`. -/
theorem log_sevenHalves_lb : (1.25 : ℝ) ≤ Real.log (7 / 2) := by
  rw [Real.le_log_iff_exp_le (by norm_num : (0 : ℝ) < 7 / 2)]
  have h4 : Real.exp 1.25 ^ (4 : ℕ) = Real.exp 1 ^ (5 : ℕ) := by
    rw [← Real.exp_nat_mul, ← Real.exp_nat_mul]
    norm_num
  have he : Real.exp 1 ≤ 2.7182818286 := Real.exp_one_lt_d9.le
  have h5 : Real.exp 1 ^ (5 : ℕ) ≤ (2.7182818286 : ℝ) ^ (5 : ℕ) :=
    pow_le_pow_left₀ (Real.exp_pos 1).le he 5
  have h6 : ((2.7182818286 : ℝ)) ^ (5 : ℕ) ≤ ((7 : ℝ) / 2) ^ (4 : ℕ) := by norm_num
  have h7 : Real.exp 1.25 ^ (4 : ℕ) ≤ ((7 : ℝ) / 2) ^ (4 : ℕ) := by rw [h4]; linarith
  exact le_of_pow_le_pow_left₀ (by norm_num) (by norm_num) h7

/-- Upper bound `ln 3.5 < 1.26`, via `3.5 ^ 50 < 2.718 ^ 63 ≤ (exp 1.26) ^ 50`. -/
theorem log_sevenHalves_ub : Real.log (7 / 2) < 1.26 := by
  rw [Real.log_lt_iff_lt_exp (by norm_num : (0 : ℝ) < 7 / 2)]
  have h50 : Real.exp 1.26 ^ (50 : ℕ) = Real.exp 1 ^ (63 : ℕ) := by
    rw [← Real.exp_nat_mul, ← Real.exp_nat_mul]
    norm_num
  have he : (2.718 : ℝ) ≤ Real.exp 1 := by
    have := Real.exp_one_gt_d9
    linarith
  have h1 : ((7 : ℝ) / 2) ^ (50 : ℕ) < (2.718 : ℝ) ^ (63 : ℕ) := by norm_num
  have h2 : ((2.718 : ℝ)) ^ (63 : ℕ) ≤ Real.exp 1 ^ (63 : ℕ) :=
    pow_le_pow_left₀ (by norm_num) he 63
  exact lt_of_pow_lt_pow_left₀ 50 (Real.exp_pos 1.26).le (by rw [h50]; linarith)

/-! Section: structure of the computed curves -/

/-- The five entries of the female curve, explicitly. -/
theorem computeRiskCurve_femaleCurve (st : RiskState) :
    (computeRiskCurve st).femaleCurve =
      [curvePoint (medBase st.med * 100) (sexMult st.sex) (ageMult st.age) (doseFactor st.dose) 0,
       curvePoint (medBase st.med * 100) (sexMult st.sex) (ageMult st.age) (doseFactor st.dose) 1,
       curvePoint (medBase st.med * 100) (sexMult st.sex) (ageMult st.age) (doseFactor st.dose) 2,
       curvePoint (medBase st.med * 100) (sexMult st.sex) (ageMult st.age) (doseFactor st.dose) 3,
       curvePoint (medBase st.med * 100) (sexMult st.sex) (ageMult st.age) (doseFactor st.dose) 4] := by
  simp [computeRiskCurve, mapWithIdx_riskTimes]

/-- The five entries of the male curve, explicitly. -/
theorem computeRiskCurve_maleCurve (st : RiskState) :
    (computeRiskCurve st).maleCurve =
      [curvePoint (medBase st.med * 100) 1.0 (ageMult st.age) (doseFactor st.dose) 0,
       curvePoint (medBase st.med * 100) 1.0 (ageMult st.age) (doseFactor st.dose) 1,
       curvePoint (medBase st.med * 100) 1.0 (ageMult st.age) (doseFactor st.dose) 2,
       curvePoint (medBase st.med * 100) 1.0 (ageMult st.age) (doseFactor st.dose) 3,
       curvePoint (medBase st.med * 100) 1.0 (ageMult st.age) (doseFactor st.dose) 4] := by
  simp [computeRiskCurve, mapWithIdx_riskTimes]

/-- Expansion of `diffPct` in terms of the two mid-time-point entries. -/
theorem computeRiskCurve_diffPct (st : RiskState) :
    (computeRiskCurve st).diffPct =
      jsRound ((curvePoint (medBase st.med * 100) (sexMult st.sex) (ageMult st.age)
          (doseFactor st.dose) 2 -
        curvePoint (medBase st.med * 100) 1.0 (ageMult st.age) (doseFactor st.dose) 2) /
        max (curvePoint (medBase st.med * 100) 1.0 (ageMult st.age) (doseFactor st.dose) 2) 1
        * 100) := by
  simp [computeRiskCurve, mapWithIdx_riskTimes]

/-- Evaluating one curve entry once the rounded value is known. -/
theorem curvePoint_eval (base sexM ageM doseF : ℝ) (i : ℕ) (n : ℤ)
    (h1 : (n : ℝ) ≤ base * (1 + (i : ℝ) * 0.06) * sexM * ageM * doseF * 10 + 1/2)
    (h2 : base * (1 + (i : ℝ) * 0.06) * sexM * ageM * doseF * 10 + 1/2 < (n : ℝ) + 1)
    (h3 : (n : ℝ) / 10 ≤ 95) :
    curvePoint base sexM ageM doseF i = (n : ℝ) / 10 := by
  rw [curvePoint, jsRound_eq h1 (by exact_mod_cast h2), min_eq_right h3]

/-- Evaluation of the toy-formula constants at the input of the worked example. -/
theorem medBase_sertraline : medBase ("sertraline") = 0.12 := by
  rw [medBase, if_pos rfl]

theorem sexMult_male : sexMult ("male") = 1.0 := by
  rw [sexMult, if_neg (by decide)]

theorem sexMult_female : sexMult ("female") = 1.26 := by
  rw [sexMult, if_pos rfl]

theorem ageMult_35 : ageMult 35 = 1.05 := by
  rw [ageMult, show ((35 : ℝ) - 30) = 5 by norm_num,
    max_eq_right (by norm_num : (0 : ℝ) ≤ 5)]
  norm_num

theorem ageMult_30 : ageMult 30 = 1 := by
  rw [ageMult, show ((30 : ℝ) - 30) = 0 by norm_num, max_self]
  norm_num

theorem doseFactor_50 : doseFactor 50 = 1 + Real.log (7 / 2) / 3 := by
  rw [doseFactor]
  norm_num

/-! Section: claims -/

/-- C1 counterexample: at `sex=male, age=35, med=sertraline, dose=50` the
first male-curve entry is 17.9, not the spec value
`min(95, round(12 * 1.0 * 1.0 * doseFactor(50) * 10)/10) = 17.0`: the
example formula of the spec omits the age multiplier `ageMult(35) = 1.05`. -/
theorem computeRiskCurve_example_counterexample :
    (computeRiskCurve { sex := "male", age := 35, med := "sertraline", dose := 50 }).maleCurve.getD 0 0 ≠
      min 95 ((jsRound (12 * 1.0 * 1.0 * (1 + Real.log (1 + 50 / 20) / 3) * 10) : ℝ) / 10) := by
  have hlb := log_sevenHalves_lb
  have hub := log_sevenHalves_ub
  have hL : (1 + (50 : ℝ) / 20) = 7 / 2 := by norm_num
  have hlhs : (computeRiskCurve
      { sex := "male", age := 35, med := "sertraline", dose := 50 }).maleCurve.getD 0 0
      = (179 : ℝ) / 10 := by
    rw [computeRiskCurve_maleCurve]
    simp only [List.getD_cons_zero]
    rw [medBase_sertraline, ageMult_35, doseFactor_50]
    apply curvePoint_eval
    · push_cast; nlinarith
    · push_cast; nlinarith
    · norm_num
  have hrhs : min (95 : ℝ)
      ((jsRound (12 * 1.0 * 1.0 * (1 + Real.log (1 + 50 / 20) / 3) * 10) : ℝ) / 10)
      = (170 : ℝ) / 10 := by
    rw [hL]
    rw [jsRound_eq (n := 170) (by push_cast; nlinarith) (by push_cast; nlinarith)]
    norm_num
  rw [hlhs, hrhs]
  norm_num

/-- C1 amended: at `sex=male, age=35, med=sertraline, dose=50` the first
male-curve entry equals
`min(95, round(12 * 1.0 * ageMult(35) * doseFactor(50) * 10)/10)` with the
age multiplier `ageMult(35) = 1.05` included, `doseFactor(50) = 1 + ln(1 + 50/20)/3`. -/
theorem computeRiskCurve_example_amended :
    (computeRiskCurve { sex := "male", age := 35, med := "sertraline", dose := 50 }).maleCurve.getD 0 0 =
      min 95 ((jsRound (12 * 1.0 * 1.05 * (1 + Real.log (1 + 50 / 20) / 3) * 10) : ℝ) / 10) := by
  rw [computeRiskCurve_maleCurve]
  simp only [List.getD_cons_zero]
  rw [medBase_sertraline, ageMult_35, doseFactor_50, curvePoint]
  have harg : (0.12 * 100 * (1 + ((0 : ℕ) : ℝ) * 0.06) * 1.0 * 1.05 * (1 + Real.log (7 / 2) / 3) * 10)
      = (12 * 1.0 * 1.05 * (1 + Real.log (1 + 50 / 20) / 3) * 10) := by
    rw [show (1 + (50 : ℝ) / 20) = 7 / 2 by norm_num]
    push_cast
    ring
  rw [harg]

/-! Subsection: sign and monotonicity facts about the factors of the formula -/

theorem medBase_nonneg (med : String) : 0 ≤ medBase med := by
  unfold medBase
  split_ifs <;> norm_num

theorem sexMult_ge_one (sex : String) : 1 ≤ sexMult sex := by
  unfold sexMult
  split_ifs <;> norm_num

theorem ageMult_ge_one (age : ℝ) : 1 ≤ ageMult age := by
  unfold ageMult
  nlinarith [le_max_left (0 : ℝ) (age - 30)]

theorem doseFactor_ge_one {dose : ℝ} (h : 0 ≤ dose) : 1 ≤ doseFactor dose := by
  unfold doseFactor
  have hlog : 0 ≤ Real.log (1 + dose / 20) := Real.log_nonneg (by linarith)
  linarith

theorem curvePoint_le_95 (base sexM ageM doseF : ℝ) (i : ℕ) :
    curvePoint base sexM ageM doseF i ≤ 95 :=
  min_le_left _ _

theorem curvePoint_nonneg {base sexM ageM doseF : ℝ} (hb : 0 ≤ base) (hs : 0 ≤ sexM)
    (ha : 0 ≤ ageM) (hd : 0 ≤ doseF) (i : ℕ) :
    0 ≤ curvePoint base sexM ageM doseF i := by
  refine le_min (by norm_num) (div_nonneg ?_ (by norm_num))
  have ht : (0 : ℝ) ≤ 1 + (i : ℝ) * 0.06 := by positivity
  have harg : 0 ≤ base * (1 + (i : ℝ) * 0.06) * sexM * ageM * doseF * 10 := by
    have := mul_nonneg (mul_nonneg (mul_nonneg (mul_nonneg hb ht) hs) ha) hd
    linarith
  exact_mod_cast jsRound_nonneg harg

theorem curvePoint_mono_idx {base sexM ageM doseF : ℝ}
    (h : 0 ≤ base * sexM * ageM * doseF) {i j : ℕ} (hij : i ≤ j) :
    curvePoint base sexM ageM doseF i ≤ curvePoint base sexM ageM doseF j := by
  unfold curvePoint
  apply min_le_min le_rfl
  have hc : ((i : ℝ)) ≤ (j : ℝ) := by exact_mod_cast hij
  have hr : jsRound (base * (1 + (i : ℝ) * 0.06) * sexM * ageM * doseF * 10) ≤
      jsRound (base * (1 + (j : ℝ) * 0.06) * sexM * ageM * doseF * 10) := by
    apply jsRound_mono
    nlinarith [mul_nonneg h (sub_nonneg.mpr hc)]
  have hr' : ((jsRound (base * (1 + (i : ℝ) * 0.06) * sexM * ageM * doseF * 10) : ℤ) : ℝ) ≤
      ((jsRound (base * (1 + (j : ℝ) * 0.06) * sexM * ageM * doseF * 10) : ℤ) : ℝ) := by
    exact_mod_cast hr
  linarith

theorem curvePoint_mono_sexM {base sexM ageM doseF : ℝ}
    (h : 0 ≤ base * ageM * doseF) (hs : 1 ≤ sexM) (i : ℕ) :
    curvePoint base 1.0 ageM doseF i ≤ curvePoint base sexM ageM doseF i := by
  unfold curvePoint
  apply min_le_min le_rfl
  have ht : (0 : ℝ) ≤ 1 + (i : ℝ) * 0.06 := by positivity
  have hr : jsRound (base * (1 + (i : ℝ) * 0.06) * 1.0 * ageM * doseF * 10) ≤
      jsRound (base * (1 + (i : ℝ) * 0.06) * sexM * ageM * doseF * 10) := by
    apply jsRound_mono
    nlinarith [mul_nonneg (mul_nonneg h ht) (sub_nonneg.mpr hs)]
  have hr' : ((jsRound (base * (1 + (i : ℝ) * 0.06) * 1.0 * ageM * doseF * 10) : ℤ) : ℝ) ≤
      ((jsRound (base * (1 + (i : ℝ) * 0.06) * sexM * ageM * doseF * 10) : ℤ) : ℝ) := by
    exact_mod_cast hr
  linarith

/-- C3: in the local fallback formula, the dose-reduction branch fires
exactly when `sex = "female"` and `diffPct > 15`; it then recommends
`max(1, round(dose * 0.8))`, and otherwise the input dose unchanged
(both in the `dose` field and in the rendered text). -/
theorem computeRiskCurve_recommendation_rule (st : RiskState) :
    (computeRiskCurve st).recommendation.dose =
      some (if st.sex = "female" ∧ (computeRiskCurve st).diffPct > 15
            then max 1 ((jsRound (st.dose * 0.8) : ℤ) : ℝ) else st.dose) ∧
    (computeRiskCurve st).recommendation.text =
      (if st.sex = "female" ∧ (computeRiskCurve st).diffPct > 15
       then RecText.optimizedFemale (max 1 ((jsRound (st.dose * 0.8) : ℤ) : ℝ))
       else RecText.noChange st.dose) := by
  simp only [computeRiskCurve]
  split_ifs <;> simp_all

/-- C7: the local fallback formula is a deterministic function of the
form state: identical inputs yield identical results. -/
theorem computeRiskCurve_deterministic (s₁ s₂ : RiskState) (h : s₁ = s₂) :
    computeRiskCurve s₁ = computeRiskCurve s₂ :=
  congrArg computeRiskCurve h

/-- Witness for C7 at the initial form state. -/
theorem computeRiskCurve_deterministic_witness :
    demoState = demoState ∧ computeRiskCurve demoState = computeRiskCurve demoState :=
  ⟨rfl, computeRiskCurve_deterministic demoState demoState rfl⟩

/-- C8: both curves have exactly as many entries as the time-point
sequence, namely 5. -/
theorem computeRiskCurve_curve_lengths (st : RiskState) :
    (computeRiskCurve st).femaleCurve.length = (computeRiskCurve st).times.length ∧
    (computeRiskCurve st).maleCurve.length = (computeRiskCurve st).times.length ∧
    (computeRiskCurve st).times.length = 5 := by
  simp [computeRiskCurve, mapWithIdx_length, riskTimes]

/-- C9: after the click handler of stat tile `i` runs, a stat tile is
active exactly when it is tile `i`, and any active indicator dot is the
one at index `i`. -/
theorem clickStat_exclusive (page : StatsPage) (i : ℕ)
    (hi : i < page.statActive.length) :
    (∀ j, ((clickStat page i).statActive.getD j false = true ↔ j = i)) ∧
    (∀ j, (clickStat page i).dotActive.getD j false = true → j = i) := by
  refine ⟨fun j => ?_, fun j h => ?_⟩
  · simp only [clickStat]
    rw [setTrue_getD]
    exact ⟨fun h => h.1, fun h => ⟨h, hi⟩⟩
  · simp only [clickStat] at h
    exact ((setTrue_getD _ _ _).mp h).1

/-- Witness for C9: three tiles, three dots, clicking tile 1. -/
theorem clickStat_exclusive_witness :
    1 < (StatsPage.mk [false, true, false] [true, false, false]).statActive.length ∧
    ((∀ j, ((clickStat ⟨[false, true, false], [true, false, false]⟩ 1).statActive.getD j false
        = true ↔ j = 1)) ∧
     (∀ j, (clickStat ⟨[false, true, false], [true, false, false]⟩ 1).dotActive.getD j false
        = true → j = 1)) :=
  ⟨by decide, clickStat_exclusive ⟨[false, true, false], [true, false, false]⟩ 1 (by decide)⟩

/-- C2: whenever the remote prediction call fails, the update still ends
in a fully rendered view computed from the local fallback formula — the
chart datasets and all three texts are those of `computeRiskCurve`, and
the final view is not the `Analyzing...` placeholder. -/
theorem updateAll_fallback_renders (remote : RemoteBehavior) (st : RiskState)
    (chartF chartM : List ℝ) (e : String)
    (h : fetchFromAPI remote st = Except.error e) :
    (updateAllTrace remote st chartF chartM).getLast? = some (updateAll remote st) ∧
    (updateAll remote st).chartFemale = (computeRiskCurve st).femaleCurve ∧
    (updateAll remote st).chartMale = (computeRiskCurve st).maleCurve ∧
    (updateAll remote st).riskDiff =
      RiskDiffView.rendered (computeRiskCurve st).diffPct st.dose ∧
    (updateAll remote st).recommend =
      RecommendView.rendered (computeRiskCurve st).recommendation.text ∧
    (updateAll remote st).metab = MetabView.rendered (computeRiskCurve st).metab ∧
    (updateAll remote st).riskDiff ≠ RiskDiffView.analyzing := by
  simp [updateAllTrace, updateAll, h]

/-- Witness for C2: an unreachable endpoint on the initial form state. -/
theorem updateAll_fallback_renders_witness :
    fetchFromAPI (RemoteBehavior.unreachable ("offline")) demoState = Except.error ("offline") ∧
    (updateAll (RemoteBehavior.unreachable ("offline")) demoState).chartFemale =
      (computeRiskCurve demoState).femaleCurve ∧
    (updateAll (RemoteBehavior.unreachable ("offline")) demoState).riskDiff ≠
      RiskDiffView.analyzing :=
  ⟨rfl,
   (updateAll_fallback_renders (RemoteBehavior.unreachable ("offline")) demoState
      [] [] "offline" rfl).2.1,
   (updateAll_fallback_renders (RemoteBehavior.unreachable ("offline")) demoState
      [] [] "offline" rfl).2.2.2.2.2.2⟩

/-- C6: a response body with neither a top-level `risk_probability` nor a
nested `prediction.risk_probability` makes the conversion fail, and the
dashboard update falls back to the local formula for that update. -/
theorem convertAPIResponse_invalid_shape (body : APIResponse) (st : RiskState)
    (h1 : body.risk_probability = none)
    (h2 : ∀ pred, body.prediction = some pred → pred.risk_probability = none) :
    convertAPIResponse body st = Except.error ("Invalid API response structure") ∧
    ∀ ok : Bool,
      (updateAll (RemoteBehavior.respond ok body) st).chartFemale =
        (computeRiskCurve st).femaleCurve ∧
      (updateAll (RemoteBehavior.respond ok body) st).chartMale =
        (computeRiskCurve st).maleCurve ∧
      (updateAll (RemoteBehavior.respond ok body) st).riskDiff =
        RiskDiffView.rendered (computeRiskCurve st).diffPct st.dose := by
  have hconv : convertAPIResponse body st = Except.error ("Invalid API response structure") := by
    unfold convertAPIResponse
    rw [h1]
    cases hp : body.prediction with
    | none => rfl
    | some pred => simp [h2 pred hp]
  refine ⟨hconv, fun ok => ?_⟩
  have hfetch : ∃ e, fetchFromAPI (RemoteBehavior.respond ok body) st = Except.error e := by
    unfold fetchFromAPI
    cases ok with
    | false => exact ⟨"API request failed", rfl⟩
    | true =>
      cases he : body.error with
      | none => exact ⟨"Invalid API response structure", by simp [he, hconv]⟩
      | some e => exact ⟨e, by simp [he]⟩
  obtain ⟨e, hfe⟩ := hfetch
  simp [updateAll, hfe]

/-- Witness for C6: the empty body on the initial form state. -/
theorem convertAPIResponse_invalid_shape_witness :
    emptyBody.risk_probability = none ∧
    (∀ pred, emptyBody.prediction = some pred → pred.risk_probability = none) ∧
    convertAPIResponse emptyBody demoState = Except.error ("Invalid API response structure") :=
  ⟨rfl, fun _ h => by simp [emptyBody] at h,
   (convertAPIResponse_invalid_shape emptyBody demoState rfl
      (fun _ h => by simp [emptyBody] at h)).1⟩

/-- Evaluation of `doseFactor` at the negative dose `-155/8 = -19.375`:
`1 + 155/8/20 = 1/32`, so the log factor is `-5 ln 2`. -/
theorem doseFactor_bad : doseFactor (-155 / 8) = 1 - 5 * Real.log 2 / 3 := by
  rw [doseFactor, show (1 + (-155 / 8 : ℝ) / 20) = ((2 : ℝ) ^ (5 : ℕ))⁻¹ by norm_num,
    Real.log_inv, Real.log_pow]
  push_cast
  ring

/-- First male-curve entry at the negative dose `-155/8`: `-1.9`. -/
theorem malePoint0_bad :
    curvePoint (0.12 * 100) 1.0 1 (1 - 5 * Real.log 2 / 3) 0 = ((-19 : ℤ) : ℝ) / 10 := by
  have hL1 := Real.log_two_gt_d9
  have hL2 := Real.log_two_lt_d9
  apply curvePoint_eval
  · push_cast
    nlinarith
  · push_cast
    nlinarith
  · norm_num

/-- C4: for dose ≥ 1, nonnegative age, and any medication and sex, every
entry of both curves lies in the closed interval [0, 95]. -/
theorem computeRiskCurve_range (st : RiskState) (hdose : 1 ≤ st.dose) (_hage : 0 ≤ st.age) :
    (∀ x ∈ (computeRiskCurve st).femaleCurve, 0 ≤ x ∧ x ≤ 95) ∧
    (∀ x ∈ (computeRiskCurve st).maleCurve, 0 ≤ x ∧ x ≤ 95) := by
  have hb : 0 ≤ medBase st.med * 100 := by nlinarith [medBase_nonneg st.med]
  have hs : 0 ≤ sexMult st.sex := le_trans zero_le_one (sexMult_ge_one st.sex)
  have ha : 0 ≤ ageMult st.age := le_trans zero_le_one (ageMult_ge_one st.age)
  have hd : 0 ≤ doseFactor st.dose := le_trans zero_le_one (doseFactor_ge_one (by linarith))
  have h1 : (0 : ℝ) ≤ 1.0 := by norm_num
  constructor
  · rw [computeRiskCurve_femaleCurve]
    intro x hx
    simp only [List.mem_cons, List.not_mem_nil, or_false] at hx
    rcases hx with rfl | rfl | rfl | rfl | rfl <;>
      exact ⟨curvePoint_nonneg hb hs ha hd _, curvePoint_le_95 _ _ _ _ _⟩
  · rw [computeRiskCurve_maleCurve]
    intro x hx
    simp only [List.mem_cons, List.not_mem_nil, or_false] at hx
    rcases hx with rfl | rfl | rfl | rfl | rfl <;>
      exact ⟨curvePoint_nonneg hb h1 ha hd _, curvePoint_le_95 _ _ _ _ _⟩

/-- Witness for C4 at the initial form state (dose 50, age 35). -/
theorem computeRiskCurve_range_witness :
    1 ≤ demoState.dose ∧ 0 ≤ demoState.age ∧
    ((∀ x ∈ (computeRiskCurve demoState).femaleCurve, 0 ≤ x ∧ x ≤ 95) ∧
     (∀ x ∈ (computeRiskCurve demoState).maleCurve, 0 ≤ x ∧ x ≤ 95)) :=
  ⟨by norm_num [demoState], by norm_num [demoState],
   computeRiskCurve_range demoState (by norm_num [demoState]) (by norm_num [demoState])⟩

/-- C5 counterexample: at the (unclamped) dose `-155/8 = -19.375` the dose
factor is negative and the male curve strictly decreases between the first
two time points, so the curves are not monotone for *every* input. -/
theorem computeRiskCurve_monotone_counterexample :
    ¬ List.Chain' (· ≤ ·)
      (computeRiskCurve
        { sex := "male", age := 30, med := "sertraline", dose := -155 / 8 }).maleCurve := by
  intro h
  rw [computeRiskCurve_maleCurve] at h
  simp only [List.chain'_cons] at h
  have h01 := h.1
  rw [medBase_sertraline, ageMult_30, doseFactor_bad] at h01
  have hL1 := Real.log_two_gt_d9
  have hL2 := Real.log_two_lt_d9
  have hp1 : curvePoint (0.12 * 100) 1.0 1 (1 - 5 * Real.log 2 / 3) 1 = ((-20 : ℤ) : ℝ) / 10 := by
    apply curvePoint_eval
    · push_cast
      nlinarith
    · push_cast
      nlinarith
    · norm_num
  rw [malePoint0_bad, hp1] at h01
  norm_num at h01

/-- C5 amended: for every input with nonnegative dose, both curves are
monotonically non-decreasing across the five time points. -/
theorem computeRiskCurve_monotone (st : RiskState) (hdose : 0 ≤ st.dose) :
    List.Chain' (· ≤ ·) (computeRiskCurve st).femaleCurve ∧
    List.Chain' (· ≤ ·) (computeRiskCurve st).maleCurve := by
  have hb : 0 ≤ medBase st.med * 100 := by nlinarith [medBase_nonneg st.med]
  have hs : 0 ≤ sexMult st.sex := le_trans zero_le_one (sexMult_ge_one st.sex)
  have ha : 0 ≤ ageMult st.age := le_trans zero_le_one (ageMult_ge_one st.age)
  have hd : 0 ≤ doseFactor st.dose := le_trans zero_le_one (doseFactor_ge_one hdose)
  have hKf : 0 ≤ medBase st.med * 100 * sexMult st.sex * ageMult st.age * doseFactor st.dose :=
    mul_nonneg (mul_nonneg (mul_nonneg hb hs) ha) hd
  have hKm : 0 ≤ medBase st.med * 100 * 1.0 * ageMult st.age * doseFactor st.dose := by
    have := mul_nonneg (mul_nonneg hb ha) hd
    nlinarith
  constructor
  · rw [computeRiskCurve_femaleCurve]
    simp only [List.chain'_cons, List.chain'_singleton, and_true]
    refine ⟨?_, ?_, ?_, ?_⟩ <;> exact curvePoint_mono_idx hKf (by norm_num)
  · rw [computeRiskCurve_maleCurve]
    simp only [List.chain'_cons, List.chain'_singleton, and_true]
    refine ⟨?_, ?_, ?_, ?_⟩ <;> exact curvePoint_mono_idx hKm (by norm_num)

/-- Witness for the amended C5 at the initial form state. -/
theorem computeRiskCurve_monotone_witness :
    0 ≤ demoState.dose ∧
    (List.Chain' (· ≤ ·) (computeRiskCurve demoState).femaleCurve ∧
     List.Chain' (· ≤ ·) (computeRiskCurve demoState).maleCurve) :=
  ⟨by norm_num [demoState], computeRiskCurve_monotone demoState (by norm_num [demoState])⟩

/-- C10 counterexample: at the negative dose `-155/8` with `sex = female`,
the first female-curve entry (-2.3) is strictly below the first male-curve
entry (-1.9): the female multiplier scales a *negative* quantity. -/
theorem computeRiskCurve_female_ge_male_counterexample :
    (computeRiskCurve
        { sex := "female", age := 30, med := "sertraline", dose := -155 / 8 }).femaleCurve.getD 0 0 <
      (computeRiskCurve
        { sex := "female", age := 30, med := "sertraline", dose := -155 / 8 }).maleCurve.getD 0 0 := by
  have hL1 := Real.log_two_gt_d9
  have hL2 := Real.log_two_lt_d9
  rw [computeRiskCurve_femaleCurve, computeRiskCurve_maleCurve]
  simp only [List.getD_cons_zero]
  rw [medBase_sertraline, sexMult_female, ageMult_30, doseFactor_bad]
  have hf : curvePoint (0.12 * 100) 1.26 1 (1 - 5 * Real.log 2 / 3) 0 = ((-23 : ℤ) : ℝ) / 10 := by
    apply curvePoint_eval
    · push_cast
      nlinarith
    · push_cast
      nlinarith
    · norm_num
  rw [hf, malePoint0_bad]
  norm_num

/-- C10 amended: for every input with nonnegative dose, each female-curve
entry dominates the corresponding male-curve entry, and `diffPct` is
nonnegative. -/
theorem computeRiskCurve_female_ge_male (st : RiskState) (hdose : 0 ≤ st.dose) :
    (∀ i : ℕ,
      (computeRiskCurve st).maleCurve.getD i 0 ≤ (computeRiskCurve st).femaleCurve.getD i 0) ∧
    0 ≤ (computeRiskCurve st).diffPct := by
  have hb : 0 ≤ medBase st.med * 100 := by nlinarith [medBase_nonneg st.med]
  have ha : 0 ≤ ageMult st.age := le_trans zero_le_one (ageMult_ge_one st.age)
  have hd : 0 ≤ doseFactor st.dose := le_trans zero_le_one (doseFactor_ge_one hdose)
  have hq : 0 ≤ medBase st.med * 100 * ageMult st.age * doseFactor st.dose :=
    mul_nonneg (mul_nonneg hb ha) hd
  have key := curvePoint_mono_sexM hq (sexMult_ge_one st.sex)
  constructor
  · intro i
    rw [computeRiskCurve_femaleCurve, computeRiskCurve_maleCurve]
    match i with
    | 0 => simpa using key 0
    | 1 => simpa using key 1
    | 2 => simpa using key 2
    | 3 => simpa using key 3
    | 4 => simpa using key 4
    | (n + 5) => simp
  · rw [computeRiskCurve_diffPct]
    apply jsRound_nonneg
    apply mul_nonneg _ (by norm_num)
    apply div_nonneg (sub_nonneg.mpr (key 2))
    exact le_trans zero_le_one (le_max_right _ _)

/-- Witness for the amended C10 at the initial form state. -/
theorem computeRiskCurve_female_ge_male_witness :
    0 ≤ demoState.dose ∧
    ((∀ i : ℕ, (computeRiskCurve demoState).maleCurve.getD i 0 ≤
        (computeRiskCurve demoState).femaleCurve.getD i 0) ∧
      0 ≤ (computeRiskCurve demoState).diffPct) :=
  ⟨by norm_num [demoState], computeRiskCurve_female_ge_male demoState (by norm_num [demoState])⟩

end DrugRisk
